import Mathlib

/-!
Verification of the otelgo configuration and bootstrapping layer.

This file gives a shallow embedding of the TLS configuration subsystem
(internal/tlsconfig), the protocol selector (common/utils.go), the builder
(tracing builder) and the per-signal Init pipelines (metrics, logs, tracing,
in both their mergo-based and their copy-based variants), and proves the
behavioural properties stated in the specification against them.

External effects (file reads, PEM parsing, exporter and resource
construction) are modelled by explicit oracle records passed to the
embedded functions, so every definition is executable on concrete inputs.
-/

namespace Otelgo

/-- The process environment as seen through os.Getenv: an unset variable
reads as the empty string, exactly as in Go. -/
structure Env where
  get : String → String

/-- internal.TLSConfig: declarative transport-security intent. -/
structure TLSConfig where
  insecure : Bool
  caCertPath : String
  clientCertPath : String
  clientKeyPath : String
  serverName : String
deriving Repr, DecidableEq

/-- The all-fields-empty TLSConfig (the Go zero value). -/
def TLSConfig.empty : TLSConfig :=
  { insecure := false, caCertPath := "", clientCertPath := "", clientKeyPath := "", serverName := "" }

/-- The two validation failures of TLSConfig.Validate, by kind. -/
inductive TLSValidateError where
  | conflictingSettings
  | incompleteClientIdentity
deriving Repr, DecidableEq

/-- internal.TLSConfig.Validate: pure checks, no file access.
Mirrors the two if-statements of the Go method. -/
def TLSConfig.validate (c : TLSConfig) : Option TLSValidateError :=
  if c.insecure && c.caCertPath != "" then
    some TLSValidateError.conflictingSettings
  else if (c.clientCertPath != "") != (c.clientKeyPath != "") then
    some TLSValidateError.incompleteClientIdentity
  else
    none

/-- internal.NewTLSConfig: derive a TLSConfig from the environment at call
time. -/
def NewTLSConfig (env : Env) : TLSConfig :=
  { insecure := env.get ("OTEL_EXPORTER_OTLP_INSECURE") == "true"
    caCertPath := env.get ("OTEL_EXPORTER_OTLP_CERTIFICATE")
    clientCertPath := env.get ("OTEL_EXPORTER_OTLP_CLIENT_CERTIFICATE")
    clientKeyPath := env.get ("OTEL_EXPORTER_OTLP_CLIENT_KEY")
    serverName := env.get ("OTEL_EXPORTER_OTLP_SERVER_NAME") }

/-- Model of the file system and certificate codec used by
TLSConfig.BuildTLSConfig. File contents are abstract byte blobs (Nat),
readFile returns none on a read failure, appendCertsFromPEM tells whether
a blob contains at least one parseable PEM certificate, and
loadX509KeyPair returns an abstract certificate or none on failure. -/
structure Disk where
  readFile : String → Option Nat
  appendCertsFromPEM : Nat → Bool
  loadX509KeyPair : String → String → Option Nat

/-- The failure kinds of TLSConfig.BuildTLSConfig, one per error return. -/
inductive BuildTLSError where
  | caCertUnreadable
  | caCertUnparseable
  | clientKeyPairUnloadable
deriving Repr, DecidableEq

/-- The assembled crypto/tls.Config, restricted to the fields the library
sets: InsecureSkipVerify, ServerName, RootCAs (none when the system pool is
kept), Certificates. -/
structure GoTLSConfig where
  insecureSkipVerify : Bool
  serverName : String
  rootCAs : Option Nat
  certificates : List Nat
deriving Repr, DecidableEq

/-- internal.TLSConfig.BuildTLSConfig: materialise the transport security
context. InsecureSkipVerify is set from c.insecure up front; the CA step
runs whenever caCertPath is non-empty; the client identity step runs
whenever both client paths are non-empty. -/
def TLSConfig.buildTLSConfig (c : TLSConfig) (disk : Disk) :
    Except BuildTLSError GoTLSConfig :=
  let base : GoTLSConfig :=
    { insecureSkipVerify := c.insecure, serverName := c.serverName
      rootCAs := none, certificates := [] }
  let afterCA : Except BuildTLSError GoTLSConfig :=
    if c.caCertPath != "" then
      match disk.readFile c.caCertPath with
      | none => Except.error BuildTLSError.caCertUnreadable
      | some caCert =>
        if disk.appendCertsFromPEM caCert then
          Except.ok { base with rootCAs := some caCert }
        else
          Except.error BuildTLSError.caCertUnparseable
    else
      Except.ok base
  match afterCA with
  | Except.error e => Except.error e
  | Except.ok cfg =>
    if c.clientCertPath != "" && c.clientKeyPath != "" then
      match disk.loadX509KeyPair c.clientCertPath c.clientKeyPath with
      | none => Except.error BuildTLSError.clientKeyPairUnloadable
      | some cert => Except.ok { cfg with certificates := [cert] }
    else
      Except.ok cfg

/-- strings.ToUpper: character-wise upper-casing of the variable name. -/
def strToUpper (s : String) : String := String.mk (s.data.map Char.toUpper)

/-- common.IsOtlpProtocolGrpc: the per-signal variable is consulted first;
if it does not read exactly "grpc" the general variable is consulted,
whether or not the per-signal one is set. -/
def IsOtlpProtocolGrpc (env : Env) (dataType : String) : Bool :=
  if env.get (strToUpper dataType) == "grpc" then
    true
  else
    env.get ("OTEL_EXPORTER_OTLP_PROTOCOL") == "grpc"

/-- The protocol-selection rule as the specification words it: gRPC is
selected exactly when the per-signal variable equals "grpc", or, when the
per-signal variable is unset, when the general variable equals "grpc". -/
def specSelectsGrpc (env : Env) (dataType : String) : Bool :=
  env.get dataType == "grpc" ||
    (env.get dataType == "" && env.get ("OTEL_EXPORTER_OTLP_PROTOCOL") == "grpc")

/-- One second in nanoseconds (Go time.Second as an int64 duration). -/
def secondNs : Int := 1000000000

/-- tracing.Config (the TLS-era variant): toggles, intervals and optional
TLS configuration. Intervals are time.Duration values in nanoseconds. -/
structure TracingConfig where
  hostMetricsEnabled : Bool
  hostMetricsInterval : Int
  runtimeMetricsEnabled : Bool
  runtimeMetricsInterval : Int
  tls : Option TLSConfig
deriving Repr, DecidableEq

/-- The package-level defaultConfig of the TLS-era tracing package: both
toggles false, both intervals two seconds, no TLS. No code in that package
version ever assigns to it. -/
def tracingDefaultConfig : TracingConfig :=
  { hostMetricsEnabled := false, runtimeMetricsEnabled := false
    hostMetricsInterval := 2 * secondNs, runtimeMetricsInterval := 2 * secondNs
    tls := none }

/-- tracing.TracingBuilder: a fluent wrapper around a TracingConfig. -/
structure TracingBuilder where
  config : TracingConfig
deriving Repr, DecidableEq

/-- tracing.NewBuilder: toggles off, intervals two seconds, no TLS. -/
def NewBuilder : TracingBuilder :=
  { config :=
    { hostMetricsEnabled := false, hostMetricsInterval := 2 * secondNs
      runtimeMetricsEnabled := false, runtimeMetricsInterval := 2 * secondNs
      tls := none } }

/-- tracing.TracingBuilder.WithHostMetrics: always sets the toggle, and
updates the interval only when it is strictly positive. -/
def TracingBuilder.withHostMetrics (b : TracingBuilder) (enabled : Bool)
    (interval : Int) : TracingBuilder :=
  let c1 := { b.config with hostMetricsEnabled := enabled }
  let c2 := if interval > 0 then { c1 with hostMetricsInterval := interval } else c1
  { config := c2 }

/-- tracing.TracingBuilder.WithRuntimeMetrics: always sets the toggle, and
updates the interval only when it is strictly positive. -/
def TracingBuilder.withRuntimeMetrics (b : TracingBuilder) (enabled : Bool)
    (interval : Int) : TracingBuilder :=
  let c1 := { b.config with runtimeMetricsEnabled := enabled }
  let c2 := if interval > 0 then { c1 with runtimeMetricsInterval := interval } else c1
  { config := c2 }

/-- mergo.Merge with WithOverride on the TLS-era tracing Config: a field of
the source overrides the destination exactly when it is not the zero value
of its type (false, 0, nil respectively). -/
def mergoMergeTracing (dst src : TracingConfig) : TracingConfig :=
  { hostMetricsEnabled :=
      if src.hostMetricsEnabled then src.hostMetricsEnabled else dst.hostMetricsEnabled
    hostMetricsInterval :=
      if src.hostMetricsInterval != 0 then src.hostMetricsInterval else dst.hostMetricsInterval
    runtimeMetricsEnabled :=
      if src.runtimeMetricsEnabled then src.runtimeMetricsEnabled else dst.runtimeMetricsEnabled
    runtimeMetricsInterval :=
      if src.runtimeMetricsInterval != 0 then src.runtimeMetricsInterval else dst.runtimeMetricsInterval
    tls := match src.tls with
      | some t => some t
      | none => dst.tls }

/-- tracing.OtelGoTracingConfig (the mergo-era variant, no TLS field). -/
structure OtelGoTracingConfig where
  hostMetricsEnabled : Bool
  hostMetricsInterval : Int
  runtimeMetricsEnabled : Bool
  runtimeMetricsInterval : Int
deriving Repr, DecidableEq

/-- The package-level defaultConfig of the mergo-era tracing package, as
initialised: toggles off, intervals two seconds. Unlike the TLS-era
variant, Init merges the caller config into this variable. -/
def tracingDefaultConfigOld : OtelGoTracingConfig :=
  { hostMetricsEnabled := false, runtimeMetricsEnabled := false
    hostMetricsInterval := 2 * secondNs, runtimeMetricsInterval := 2 * secondNs }

/-- mergo.Merge with WithOverride on OtelGoTracingConfig. -/
def mergoMergeTracingOld (dst src : OtelGoTracingConfig) : OtelGoTracingConfig :=
  { hostMetricsEnabled :=
      if src.hostMetricsEnabled then src.hostMetricsEnabled else dst.hostMetricsEnabled
    hostMetricsInterval :=
      if src.hostMetricsInterval != 0 then src.hostMetricsInterval else dst.hostMetricsInterval
    runtimeMetricsEnabled :=
      if src.runtimeMetricsEnabled then src.runtimeMetricsEnabled else dst.runtimeMetricsEnabled
    runtimeMetricsInterval :=
      if src.runtimeMetricsInterval != 0 then src.runtimeMetricsInterval else dst.runtimeMetricsInterval }

/-- How a background-metrics setup helper terminates: normal completion,
a panic, or a process-terminating log.Fatal call. -/
inductive SetupOutcome where
  | completed
  | panicked
  | fatalExit
deriving Repr, DecidableEq

/-- Success oracles for the external SDK constructors invoked by the
pipelines: each field tells whether the corresponding fallible external
call succeeds on this run. -/
structure SdkOracle where
  grpcMetricExporterOk : Bool
  httpMetricExporterOk : Bool
  grpcLogExporterOk : Bool
  httpLogExporterOk : Bool
  traceExporterOk : Bool
  resourceOk : Bool
  hostStartOk : Bool
  runtimeStartOk : Bool
  providerShutdownOk : Bool
deriving Repr, DecidableEq

/-- tracing.setupHostMetrics (hostmetrics.go): panics when the metric
exporter cannot be built, log.Fatal when host.Start fails, and log.Fatal
from the deferred provider.Shutdown when that fails. -/
def setupHostMetrics (env : Env) (o : SdkOracle) : SetupOutcome :=
  let expOk :=
    if env.get ("OTEL_EXPORTER_OTLP_PROTOCOL") == "grpc" then o.grpcMetricExporterOk
    else o.httpMetricExporterOk
  if !expOk then SetupOutcome.panicked
  else if !o.hostStartOk then SetupOutcome.fatalExit
  else if !o.providerShutdownOk then SetupOutcome.fatalExit
  else SetupOutcome.completed

/-- tracing.setupRuntimeMetrics (TLS-era variant): derives a TLSConfig from
the environment, panicking on validation or build failure, panics when the
metric exporter cannot be built, and log.Fatal when runtime.Start fails. -/
def setupRuntimeMetrics (env : Env) (disk : Disk) (o : SdkOracle) : SetupOutcome :=
  let tlsCfg := NewTLSConfig env
  match tlsCfg.validate with
  | some _ => SetupOutcome.panicked
  | none =>
    match tlsCfg.buildTLSConfig disk with
    | Except.error _ => SetupOutcome.panicked
    | Except.ok _ =>
      let expOk :=
        if IsOtlpProtocolGrpc env ("OTEL_EXPORTER_OTLP_METRICS_PROTOCOL") then o.grpcMetricExporterOk
        else o.httpMetricExporterOk
      if !expOk then SetupOutcome.panicked
      else if !o.runtimeStartOk then SetupOutcome.fatalExit
      else SetupOutcome.completed

/-- tracing.setupRuntimeMetrics (runtimemetrics.go, mergo-era variant with
a hard-coded insecure TLS client): panics when the metric exporter cannot
be built, log.Fatal when runtime.Start fails. -/
def setupRuntimeMetricsLegacy (env : Env) (o : SdkOracle) : SetupOutcome :=
  let expOk :=
    if IsOtlpProtocolGrpc env ("OTEL_EXPORTER_OTLP_METRICS_PROTOCOL") then o.grpcMetricExporterOk
    else o.httpMetricExporterOk
  if !expOk then SetupOutcome.panicked
  else if !o.runtimeStartOk then SetupOutcome.fatalExit
  else SetupOutcome.completed

/-- How an Init call terminates: a handle with a nil error, a nil handle
with a non-nil error, a panic, or a process-terminating log.Fatal. -/
inductive InitOutcome (ε α : Type) where
  | ok : α → InitOutcome ε α
  | errorReturn : ε → InitOutcome ε α
  | panicked : InitOutcome ε α
  | fatalExit : InitOutcome ε α
deriving Repr, DecidableEq

/-- Whether the outcome is a panic or a fatal process exit (anything other
than a plain return). -/
def InitOutcome.aborted : InitOutcome ε α → Bool
  | InitOutcome.panicked => true
  | InitOutcome.fatalExit => true
  | _ => false

/-- The error kinds returned by the Init pipelines. -/
inductive PipelineError where
  | invalidTLSConfiguration (e : TLSValidateError)
  | tlsBuildFailure (e : BuildTLSError)
  | resourceFailure
  | exporterFailure
deriving Repr, DecidableEq

/-- A resource attribute: a key-value pair. -/
structure Attr where
  key : String
  value : String
deriving Repr, DecidableEq

/-- semconv.ServiceNameKey.String(v). -/
def serviceNameAttr (v : String) : Attr := { key := "service.name", value := v }

/-- semconv.ServiceVersionKey.String(v). -/
def serviceVersionAttr (v : String) : Attr := { key := "service.version", value := v }

/-- Number of attributes in the list carrying the given key. -/
def countKey (attrs : List Attr) (k : String) : Nat :=
  (attrs.filter (fun a => a.key == k)).length

/-- metrics.OtelGoMetricsConfig (TLS-era variant): attributes plus an
optional TLS configuration. -/
structure OtelGoMetricsConfig where
  attributes : List Attr
  tls : Option TLSConfig
deriving Repr, DecidableEq

/-- The package-level defaultConfig of the TLS-era metrics package. Its
initialiser runs once, at process start, against the environment of that
moment (envAtStart). -/
def metricsDefaultConfig (envAtStart : Env) : OtelGoMetricsConfig :=
  { attributes :=
      [serviceNameAttr (envAtStart.get ("OTEL_SERVICE_NAME")), serviceVersionAttr ("v1.0.0")]
    tls := none }

/-- The nil-check on localConfig.TLS shared by the TLS-era pipelines: use
the caller TLS config when present, otherwise derive one from the
call-time environment. -/
def resolveTLS (env : Env) : Option TLSConfig → TLSConfig
  | some t => t
  | none => NewTLSConfig env

/-- The provider handle produced by a successful pipeline run: the
attribute list handed to the resource constructor, the transport flavor
chosen, and the materialised TLS context attached to the exporter. -/
structure PipelineProvider where
  resourceAttrs : List Attr
  usedGrpc : Bool
  tls : GoTLSConfig
deriving Repr, DecidableEq

/-- A complete run of the TLS-era metrics Init: the returned outcome and
the value of the package-level defaultConfig after the call. -/
structure MetricsInitRun where
  outcome : InitOutcome PipelineError PipelineProvider
  defaultsAfter : OtelGoMetricsConfig
deriving Repr, DecidableEq

/-- metrics.Init (TLS-era variant): copy the defaults into a local config,
replace the attribute list wholesale when the caller supplied a non-empty
one, default the TLS config from the call-time environment when absent,
validate, build the TLS context, build the resource, pick the transport
flavor, build the exporter, and register the provider. The package-level
defaultConfig is never written. -/
def metricsInit (defaults : OtelGoMetricsConfig) (env : Env) (disk : Disk)
    (o : SdkOracle) (config : OtelGoMetricsConfig) : MetricsInitRun :=
  let localAttrs :=
    if config.attributes.length > 0 then config.attributes else defaults.attributes
  let resolvedTLS := resolveTLS env config.tls
  let outcome : InitOutcome PipelineError PipelineProvider :=
    match resolvedTLS.validate with
    | some e => InitOutcome.errorReturn (PipelineError.invalidTLSConfiguration e)
    | none =>
      match resolvedTLS.buildTLSConfig disk with
      | Except.error e => InitOutcome.errorReturn (PipelineError.tlsBuildFailure e)
      | Except.ok tlsC =>
        if !o.resourceOk then InitOutcome.errorReturn PipelineError.resourceFailure
        else
          let usedGrpc := IsOtlpProtocolGrpc env ("OTEL_EXPORTER_OTLP_METRICS_PROTOCOL")
          let expOk := if usedGrpc then o.grpcMetricExporterOk else o.httpMetricExporterOk
          if !expOk then InitOutcome.errorReturn PipelineError.exporterFailure
          else InitOutcome.ok { resourceAttrs := localAttrs, usedGrpc := usedGrpc, tls := tlsC }
  { outcome := outcome, defaultsAfter := defaults }

/-- logs.OtelGoLogsConfig (TLS-era variant). -/
structure OtelGoLogsConfig where
  attributes : List Attr
  tls : Option TLSConfig
deriving Repr, DecidableEq

/-- The package-level defaultConfig of the TLS-era logs package, evaluated
once at process start. -/
def logsDefaultConfig (envAtStart : Env) : OtelGoLogsConfig :=
  { attributes :=
      [serviceNameAttr (envAtStart.get ("OTEL_SERVICE_NAME")), serviceVersionAttr ("v1.0.0")]
    tls := none }

/-- A complete run of the TLS-era logs Init. -/
structure LogsInitRun where
  outcome : InitOutcome PipelineError PipelineProvider
  defaultsAfter : OtelGoLogsConfig
deriving Repr, DecidableEq

/-- logs.Init (TLS-era variant): same shape as the metrics pipeline, with
the logs protocol selector and log exporters. -/
def logsInit (defaults : OtelGoLogsConfig) (env : Env) (disk : Disk)
    (o : SdkOracle) (config : OtelGoLogsConfig) : LogsInitRun :=
  let localAttrs :=
    if config.attributes.length > 0 then config.attributes else defaults.attributes
  let resolvedTLS := resolveTLS env config.tls
  let outcome : InitOutcome PipelineError PipelineProvider :=
    match resolvedTLS.validate with
    | some e => InitOutcome.errorReturn (PipelineError.invalidTLSConfiguration e)
    | none =>
      match resolvedTLS.buildTLSConfig disk with
      | Except.error e => InitOutcome.errorReturn (PipelineError.tlsBuildFailure e)
      | Except.ok tlsC =>
        if !o.resourceOk then InitOutcome.errorReturn PipelineError.resourceFailure
        else
          let usedGrpc := IsOtlpProtocolGrpc env ("OTEL_EXPORTER_OTLP_LOGS_PROTOCOL")
          let expOk := if usedGrpc then o.grpcLogExporterOk else o.httpLogExporterOk
          if !expOk then InitOutcome.errorReturn PipelineError.exporterFailure
          else InitOutcome.ok { resourceAttrs := localAttrs, usedGrpc := usedGrpc, tls := tlsC }
  { outcome := outcome, defaultsAfter := defaults }

/-- metrics.OtelGoMetricsConfig (mergo-era variant, attributes only). -/
structure OtelGoMetricsConfigOld where
  attributes : List Attr
deriving Repr, DecidableEq

/-- The package-level defaultConfig of the mergo-era metrics package,
evaluated once at process start. -/
def metricsDefaultConfigOld (envAtStart : Env) : OtelGoMetricsConfigOld :=
  { attributes :=
      [serviceNameAttr (envAtStart.get ("OTEL_SERVICE_NAME")), serviceVersionAttr ("v0.0.0")] }

/-- mergo.Merge with WithOverride on the mergo-era metrics config: a
non-empty source attribute slice overrides the destination. -/
def mergoMergeMetricsOld (dst src : OtelGoMetricsConfigOld) : OtelGoMetricsConfigOld :=
  { attributes := if src.attributes.isEmpty then dst.attributes else src.attributes }

/-- The provider handle of the mergo-era metrics Init. -/
structure MetricsProviderOld where
  resourceAttrs : List Attr
  usedGrpc : Bool
deriving Repr, DecidableEq

/-- A complete run of the mergo-era metrics Init, including the mutated
package-level defaultConfig it leaves behind. -/
structure MetricsInitOldRun where
  outcome : InitOutcome PipelineError MetricsProviderOld
  defaultsAfter : OtelGoMetricsConfigOld
deriving Repr, DecidableEq

/-- metrics.Init (mergo-era variant): merges the caller config INTO the
package-level defaultConfig and then reads the merged defaults for the
resource attributes. -/
def metricsInitOld (defaults : OtelGoMetricsConfigOld) (env : Env)
    (o : SdkOracle) (config : OtelGoMetricsConfigOld) : MetricsInitOldRun :=
  let defaultsAfter := mergoMergeMetricsOld defaults config
  if !o.resourceOk then
    { outcome := InitOutcome.errorReturn PipelineError.resourceFailure
      defaultsAfter := defaultsAfter }
  else
    let usedGrpc := IsOtlpProtocolGrpc env ("OTEL_EXPORTER_OTLP_METRICS_PROTOCOL")
    let expOk := if usedGrpc then o.grpcMetricExporterOk else o.httpMetricExporterOk
    if !expOk then
      { outcome := InitOutcome.errorReturn PipelineError.exporterFailure
        defaultsAfter := defaultsAfter }
    else
      { outcome := InitOutcome.ok
          { resourceAttrs := defaultsAfter.attributes, usedGrpc := usedGrpc }
        defaultsAfter := defaultsAfter }

/-- The provider handle of the TLS-era tracing Init. -/
structure TracingTLSProvider where
  usedGrpc : Bool
  tls : GoTLSConfig
deriving Repr, DecidableEq

/-- A complete run of the TLS-era tracing Init: outcome, package defaults
after the call, and whether each background-metrics setup helper was
invoked. -/
structure TracingInitRun where
  outcome : InitOutcome PipelineError TracingTLSProvider
  defaultsAfter : TracingConfig
  hostSetupCalled : Bool
  runtimeSetupCalled : Bool
deriving Repr, DecidableEq

/-- tracing.Init (TLS-era variant): seeds a local config from the package
defaults, merges the caller config into the LOCAL copy, resolves and
validates TLS, builds the exporter and resource, and then guards the two
background-metrics branches on the fields of the PACKAGE-LEVEL
defaultConfig (the defaults parameter), not the merged local config,
exactly as the source does. The package defaults are never written. -/
def tracingInit (defaults : TracingConfig) (env : Env) (disk : Disk)
    (o : SdkOracle) (config : TracingConfig) : TracingInitRun :=
  let seeded : TracingConfig :=
    { hostMetricsEnabled := defaults.hostMetricsEnabled
      hostMetricsInterval := defaults.hostMetricsInterval
      runtimeMetricsEnabled := defaults.runtimeMetricsEnabled
      runtimeMetricsInterval := defaults.runtimeMetricsInterval
      tls := config.tls }
  let localConfig := mergoMergeTracing seeded config
  let resolvedTLS :=
    match localConfig.tls with
    | some t => t
    | none => NewTLSConfig env
  match resolvedTLS.validate with
  | some e =>
    { outcome := InitOutcome.errorReturn (PipelineError.invalidTLSConfiguration e)
      defaultsAfter := defaults, hostSetupCalled := false, runtimeSetupCalled := false }
  | none =>
    match resolvedTLS.buildTLSConfig disk with
    | Except.error e =>
      { outcome := InitOutcome.errorReturn (PipelineError.tlsBuildFailure e)
        defaultsAfter := defaults, hostSetupCalled := false, runtimeSetupCalled := false }
    | Except.ok tlsC =>
      let usedGrpc := IsOtlpProtocolGrpc env ("OTEL_EXPORTER_OTLP_TRACES_PROTOCOL")
      if !o.traceExporterOk then
        { outcome := InitOutcome.errorReturn PipelineError.exporterFailure
          defaultsAfter := defaults, hostSetupCalled := false, runtimeSetupCalled := false }
      else if !o.resourceOk then
        { outcome := InitOutcome.errorReturn PipelineError.resourceFailure
          defaultsAfter := defaults, hostSetupCalled := false, runtimeSetupCalled := false }
      else
        if defaults.hostMetricsEnabled then
          match setupHostMetrics env o with
          | SetupOutcome.panicked =>
            { outcome := InitOutcome.panicked, defaultsAfter := defaults
              hostSetupCalled := true, runtimeSetupCalled := false }
          | SetupOutcome.fatalExit =>
            { outcome := InitOutcome.fatalExit, defaultsAfter := defaults
              hostSetupCalled := true, runtimeSetupCalled := false }
          | SetupOutcome.completed =>
            if defaults.runtimeMetricsEnabled then
              match setupRuntimeMetrics env disk o with
              | SetupOutcome.panicked =>
                { outcome := InitOutcome.panicked, defaultsAfter := defaults
                  hostSetupCalled := true, runtimeSetupCalled := true }
              | SetupOutcome.fatalExit =>
                { outcome := InitOutcome.fatalExit, defaultsAfter := defaults
                  hostSetupCalled := true, runtimeSetupCalled := true }
              | SetupOutcome.completed =>
                { outcome := InitOutcome.ok { usedGrpc := usedGrpc, tls := tlsC }
                  defaultsAfter := defaults, hostSetupCalled := true, runtimeSetupCalled := true }
            else
              { outcome := InitOutcome.ok { usedGrpc := usedGrpc, tls := tlsC }
                defaultsAfter := defaults, hostSetupCalled := true, runtimeSetupCalled := false }
        else if defaults.runtimeMetricsEnabled then
          match setupRuntimeMetrics env disk o with
          | SetupOutcome.panicked =>
            { outcome := InitOutcome.panicked, defaultsAfter := defaults
              hostSetupCalled := false, runtimeSetupCalled := true }
          | SetupOutcome.fatalExit =>
            { outcome := InitOutcome.fatalExit, defaultsAfter := defaults
              hostSetupCalled := false, runtimeSetupCalled := true }
          | SetupOutcome.completed =>
            { outcome := InitOutcome.ok { usedGrpc := usedGrpc, tls := tlsC }
              defaultsAfter := defaults, hostSetupCalled := false, runtimeSetupCalled := true }
        else
          { outcome := InitOutcome.ok { usedGrpc := usedGrpc, tls := tlsC }
            defaultsAfter := defaults, hostSetupCalled := false, runtimeSetupCalled := false }

/-- The provider handle of the mergo-era tracing Init. -/
structure TracingProviderOld where
  usedGrpc : Bool
deriving Repr, DecidableEq

/-- A complete run of the mergo-era tracing Init. -/
structure TracingInitOldRun where
  outcome : InitOutcome PipelineError TracingProviderOld
  defaultsAfter : OtelGoTracingConfig
  hostSetupCalled : Bool
  runtimeSetupCalled : Bool
deriving Repr, DecidableEq

/-- tracing.Init (mergo-era variant, tracing.go): merges the caller config
into the package-level defaultConfig, builds the exporter and resource,
and then runs the background-metrics setups when the MERGED defaults
enable them, so their panic and log.Fatal exits escape from Init. -/
def tracingInitOld (defaults : OtelGoTracingConfig) (env : Env)
    (o : SdkOracle) (config : OtelGoTracingConfig) : TracingInitOldRun :=
  let defaultsAfter := mergoMergeTracingOld defaults config
  let usedGrpc := env.get ("OTEL_EXPORTER_OTLP_PROTOCOL") == "grpc"
  if !o.traceExporterOk then
    { outcome := InitOutcome.errorReturn PipelineError.exporterFailure
      defaultsAfter := defaultsAfter, hostSetupCalled := false, runtimeSetupCalled := false }
  else if !o.resourceOk then
    { outcome := InitOutcome.errorReturn PipelineError.resourceFailure
      defaultsAfter := defaultsAfter, hostSetupCalled := false, runtimeSetupCalled := false }
  else
    if defaultsAfter.hostMetricsEnabled then
      match setupHostMetrics env o with
      | SetupOutcome.panicked =>
        { outcome := InitOutcome.panicked, defaultsAfter := defaultsAfter
          hostSetupCalled := true, runtimeSetupCalled := false }
      | SetupOutcome.fatalExit =>
        { outcome := InitOutcome.fatalExit, defaultsAfter := defaultsAfter
          hostSetupCalled := true, runtimeSetupCalled := false }
      | SetupOutcome.completed =>
        if defaultsAfter.runtimeMetricsEnabled then
          match setupRuntimeMetricsLegacy env o with
          | SetupOutcome.panicked =>
            { outcome := InitOutcome.panicked, defaultsAfter := defaultsAfter
              hostSetupCalled := true, runtimeSetupCalled := true }
          | SetupOutcome.fatalExit =>
            { outcome := InitOutcome.fatalExit, defaultsAfter := defaultsAfter
              hostSetupCalled := true, runtimeSetupCalled := true }
          | SetupOutcome.completed =>
            { outcome := InitOutcome.ok { usedGrpc := usedGrpc }
              defaultsAfter := defaultsAfter, hostSetupCalled := true, runtimeSetupCalled := true }
        else
          { outcome := InitOutcome.ok { usedGrpc := usedGrpc }
            defaultsAfter := defaultsAfter, hostSetupCalled := true, runtimeSetupCalled := false }
    else if defaultsAfter.runtimeMetricsEnabled then
      match setupRuntimeMetricsLegacy env o with
      | SetupOutcome.panicked =>
        { outcome := InitOutcome.panicked, defaultsAfter := defaultsAfter
          hostSetupCalled := false, runtimeSetupCalled := true }
      | SetupOutcome.fatalExit =>
        { outcome := InitOutcome.fatalExit, defaultsAfter := defaultsAfter
          hostSetupCalled := false, runtimeSetupCalled := true }
      | SetupOutcome.completed =>
        { outcome := InitOutcome.ok { usedGrpc := usedGrpc }
          defaultsAfter := defaultsAfter, hostSetupCalled := false, runtimeSetupCalled := true }
    else
      { outcome := InitOutcome.ok { usedGrpc := usedGrpc }
        defaultsAfter := defaultsAfter, hostSetupCalled := false, runtimeSetupCalled := false }

/-! ### Concrete fixtures used by counterexamples and witnesses -/

/-- An environment with every variable unset. -/
def envEmpty : Env := ⟨fun _ => ""⟩

/-- An environment where only OTEL_SERVICE_NAME is set, to "alpha". -/
def envServiceAlpha : Env :=
  ⟨fun n => if n == "OTEL_SERVICE_NAME" then "alpha" else ""⟩

/-- An environment where only OTEL_SERVICE_NAME is set, to "beta". -/
def envServiceBeta : Env :=
  ⟨fun n => if n == "OTEL_SERVICE_NAME" then "beta" else ""⟩

/-- An environment with the per-signal metrics protocol set to "http" and
the general protocol set to "grpc". -/
def envPerSignalHttpGeneralGrpc : Env :=
  ⟨fun n =>
    if n == "OTEL_EXPORTER_OTLP_METRICS_PROTOCOL" then "http"
    else if n == "OTEL_EXPORTER_OTLP_PROTOCOL" then "grpc"
    else ""⟩

/-- A call-time environment enabling the insecure TLS default, the gRPC
metrics flavor, and a changed service name. -/
def envCallMixed : Env :=
  ⟨fun n =>
    if n == "OTEL_EXPORTER_OTLP_INSECURE" then "true"
    else if n == "OTEL_EXPORTER_OTLP_METRICS_PROTOCOL" then "grpc"
    else if n == "OTEL_SERVICE_NAME" then "beta"
    else ""⟩

/-- A file system where every read fails and every load fails. -/
def diskEmpty : Disk := ⟨fun _ => none, fun _ => false, fun _ _ => none⟩

/-- A file system where every read succeeds but no content parses as a PEM
certificate. -/
def diskBadPem : Disk := ⟨fun _ => some 7, fun _ => false, fun _ _ => none⟩

/-- An oracle where every external SDK call succeeds. -/
def oracleAllOk : SdkOracle :=
  { grpcMetricExporterOk := true, httpMetricExporterOk := true
    grpcLogExporterOk := true, httpLogExporterOk := true
    traceExporterOk := true, resourceOk := true
    hostStartOk := true, runtimeStartOk := true, providerShutdownOk := true }

/-- An oracle where only the metric exporter constructors fail. -/
def oracleMetricExporterFails : SdkOracle :=
  { oracleAllOk with grpcMetricExporterOk := false, httpMetricExporterOk := false }

/-- An insecure TLSConfig that also carries a CA path. -/
def tlsInsecureWithCA : TLSConfig :=
  { insecure := true, caCertPath := "/nonexistent/ca.pem"
    clientCertPath := "", clientKeyPath := "", serverName := "" }

/-- An insecure TLSConfig with every other field empty. -/
def tlsInsecureOnly : TLSConfig := { TLSConfig.empty with insecure := true }

/-- A Validate-clean insecure TLSConfig that also names a client key pair. -/
def tlsInsecureClient : TLSConfig :=
  { insecure := true, caCertPath := ""
    clientCertPath := "/client/cert.pem", clientKeyPath := "/client/key.pem"
    serverName := "" }

/-- A TLSConfig naming only a CA certificate path. -/
def tlsWithCA : TLSConfig := { TLSConfig.empty with caCertPath := "/certs/ca.pem" }

/-- A caller metrics config whose non-empty attribute list carries no
service-name attribute. -/
def cfgVersionOnly : OtelGoMetricsConfig :=
  { attributes := [serviceVersionAttr ("2.0.0")], tls := none }

/-- A caller metrics config supplying exactly one service-name attribute. -/
def cfgCustomM : OtelGoMetricsConfig :=
  { attributes := [serviceNameAttr ("custom")], tls := none }

/-- A caller logs config supplying no attributes. -/
def cfgEmptyL : OtelGoLogsConfig := { attributes := [], tls := none }

/-- A caller metrics config supplying no attributes and no TLS config. -/
def cfgEmptyM : OtelGoMetricsConfig := { attributes := [], tls := none }

/-- A mergo-era caller metrics config with a single custom attribute. -/
def cfgOldCustom : OtelGoMetricsConfigOld := { attributes := [serviceNameAttr ("svc-b")] }

/-- A mergo-era tracing caller config enabling host metrics only. -/
def cfgOldHostOn : OtelGoTracingConfig :=
  { hostMetricsEnabled := true, hostMetricsInterval := 0
    runtimeMetricsEnabled := false, runtimeMetricsInterval := 0 }

/-- The empty TLS transport context with verification disabled. -/
def goTLSInsecureBase : GoTLSConfig :=
  { insecureSkipVerify := true, serverName := "", rootCAs := none, certificates := [] }

/-- The empty TLS transport context with verification enabled. -/
def goTLSSecureBase : GoTLSConfig :=
  { insecureSkipVerify := false, serverName := "", rootCAs := none, certificates := [] }

/-- The provider produced by a metrics Init run that replaces the default
attributes with the single caller-supplied service-name attribute. -/
def pCustomM : PipelineProvider :=
  { resourceAttrs := [serviceNameAttr ("custom")], usedGrpc := false, tls := goTLSSecureBase }

/-- The provider produced by a logs Init run that falls back to the
process-start defaults of the envServiceAlpha environment. -/
def pDefaultL : PipelineProvider :=
  { resourceAttrs := [serviceNameAttr ("alpha"), serviceVersionAttr ("v1.0.0")]
    usedGrpc := false, tls := goTLSSecureBase }

/-- The provider produced by a metrics Init run whose defaults were
captured from envServiceAlpha, called later under envServiceBeta. -/
def pAlphaDefaults : PipelineProvider :=
  { resourceAttrs := [serviceNameAttr ("alpha"), serviceVersionAttr ("v1.0.0")]
    usedGrpc := false, tls := goTLSSecureBase }

/-- The provider produced by a metrics Init run whose defaults were
captured from envServiceAlpha, called later under envCallMixed. -/
def pMixedRun : PipelineProvider :=
  { resourceAttrs := [serviceNameAttr ("alpha"), serviceVersionAttr ("v1.0.0")]
    usedGrpc := true, tls := goTLSInsecureBase }

/-! ### Helper lemmas -/

theorem buildTLSConfig_ok_fields (c : TLSConfig) (disk : Disk) (g : GoTLSConfig)
    (h : c.buildTLSConfig disk = Except.ok g) :
    g.insecureSkipVerify = c.insecure ∧ g.serverName = c.serverName := by
  unfold TLSConfig.buildTLSConfig at h
  repeat' split at h
  all_goals first
    | (injection h with h; subst h; exact ⟨rfl, rfl⟩)
    | (subst h; exact ⟨rfl, rfl⟩)
    | simp at h

theorem metricsInit_ok_spec (defaults : OtelGoMetricsConfig) (env : Env) (disk : Disk)
    (o : SdkOracle) (cfg : OtelGoMetricsConfig) (p : PipelineProvider)
    (h : (metricsInit defaults env disk o cfg).outcome = InitOutcome.ok p) :
    p.resourceAttrs =
      (if cfg.attributes.length > 0 then cfg.attributes else defaults.attributes) ∧
    p.usedGrpc = IsOtlpProtocolGrpc env ("OTEL_EXPORTER_OTLP_METRICS_PROTOCOL") ∧
    (resolveTLS env cfg.tls).buildTLSConfig disk = Except.ok p.tls := by
  unfold metricsInit at h
  dsimp only at h
  cases hv : (resolveTLS env cfg.tls).validate with
  | some e => rw [hv] at h; simp at h
  | none =>
    rw [hv] at h
    cases hb : (resolveTLS env cfg.tls).buildTLSConfig disk with
    | error e => rw [hb] at h; simp at h
    | ok tlsC =>
      rw [hb] at h
      dsimp only at h
      repeat' split at h
      all_goals first
        | (injection h with h
           subst h
           refine ⟨?_, rfl, rfl⟩
           split <;> simp_all)
        | injection h

theorem logsInit_ok_spec (defaults : OtelGoLogsConfig) (env : Env) (disk : Disk)
    (o : SdkOracle) (cfg : OtelGoLogsConfig) (p : PipelineProvider)
    (h : (logsInit defaults env disk o cfg).outcome = InitOutcome.ok p) :
    p.resourceAttrs =
      (if cfg.attributes.length > 0 then cfg.attributes else defaults.attributes) ∧
    p.usedGrpc = IsOtlpProtocolGrpc env ("OTEL_EXPORTER_OTLP_LOGS_PROTOCOL") ∧
    (resolveTLS env cfg.tls).buildTLSConfig disk = Except.ok p.tls := by
  unfold logsInit at h
  dsimp only at h
  cases hv : (resolveTLS env cfg.tls).validate with
  | some e => rw [hv] at h; simp at h
  | none =>
    rw [hv] at h
    cases hb : (resolveTLS env cfg.tls).buildTLSConfig disk with
    | error e => rw [hb] at h; simp at h
    | ok tlsC =>
      rw [hb] at h
      dsimp only at h
      repeat' split at h
      all_goals first
        | (injection h with h
           subst h
           refine ⟨?_, rfl, rfl⟩
           split <;> simp_all)
        | injection h

/-! ### Claim theorems -/

/-- Claim C1: Validate returns an error exactly on the two invalid shapes.
It reports ConflictingSettings exactly when insecure is set together with
a non-empty caCertPath; it reports IncompleteClientIdentity exactly when
that conflict is absent and exactly one of the client paths is non-empty;
and it succeeds exactly when neither condition holds, which covers the
all-fields-empty config. -/
theorem tlsconfig_validate_characterization (c : TLSConfig) :
    (c.validate = some TLSValidateError.conflictingSettings ↔
      (c.insecure = true ∧ c.caCertPath ≠ "")) ∧
    (c.validate = some TLSValidateError.incompleteClientIdentity ↔
      (¬(c.insecure = true ∧ c.caCertPath ≠ "") ∧
        ((c.clientCertPath ≠ "" ∧ c.clientKeyPath = "") ∨
         (c.clientCertPath = "" ∧ c.clientKeyPath ≠ "")))) ∧
    (c.validate = none ↔
      (¬(c.insecure = true ∧ c.caCertPath ≠ "") ∧
        ¬((c.clientCertPath ≠ "" ∧ c.clientKeyPath = "") ∨
          (c.clientCertPath = "" ∧ c.clientKeyPath ≠ "")))) := by
  by_cases hca : c.caCertPath = "" <;>
    by_cases hcc : c.clientCertPath = "" <;>
      by_cases hck : c.clientKeyPath = "" <;>
        cases hi : c.insecure <;>
          simp_all [TLSConfig.validate] <;>
            first
              | rfl
              | (have e1 : (c.clientCertPath != "") = true := by simp [hcc]
                 have e2 : (c.clientKeyPath != "") = true := by simp [hck]
                 rw [e1, e2])

/-- Claim C2 counterexample: a TLSConfig with insecure set that also names
a client key pair passes Validate, yet BuildTLSConfig fails when the pair
cannot be loaded, so the insecure flag does not bypass the loading steps
and the call does not succeed regardless of the other fields. -/
theorem buildTLSConfig_insecure_not_bypassing :
    tlsInsecureClient.insecure = true ∧
    tlsInsecureClient.validate = none ∧
    tlsInsecureClient.buildTLSConfig diskEmpty =
      Except.error BuildTLSError.clientKeyPairUnloadable := by
  exact ⟨rfl, rfl, rfl⟩

/-- Claim C2 amended: for an insecure TLSConfig, any transport context
BuildTLSConfig returns has peer verification disabled, and the call
succeeds with the bare verification-disabled context whenever the CA path
is empty and the client key pair is not fully specified; the CA-loading
and client-identity steps themselves are not bypassed. -/
theorem buildTLSConfig_insecure_spec (c : TLSConfig) (disk : Disk)
    (h : c.insecure = true) :
    (∀ g, c.buildTLSConfig disk = Except.ok g → g.insecureSkipVerify = true) ∧
    (c.caCertPath = "" → (c.clientCertPath = "" ∨ c.clientKeyPath = "") →
      c.buildTLSConfig disk = Except.ok
        { insecureSkipVerify := true, serverName := c.serverName
          rootCAs := none, certificates := [] }) := by
  constructor
  · intro g hg
    have := buildTLSConfig_ok_fields c disk g hg
    rw [this.1, h]
  · intro hca hclient
    have hcab : (c.caCertPath != "") = false := by simp [hca]
    have hclb : (c.clientCertPath != "" && c.clientKeyPath != "") = false := by
      rcases hclient with h1 | h1 <;> simp [h1]
    unfold TLSConfig.buildTLSConfig
    simp [hcab, hclb, h]

/-- Claim C2 witness: the insecure config with all paths empty builds
successfully and the result has peer verification disabled. -/
theorem buildTLSConfig_insecure_spec_witness :
    tlsInsecureOnly.buildTLSConfig diskEmpty = Except.ok goTLSInsecureBase ∧
    goTLSInsecureBase.insecureSkipVerify = true := by
  have hbuild :=
    (buildTLSConfig_insecure_spec tlsInsecureOnly diskEmpty rfl).2 rfl (Or.inl rfl)
  exact ⟨hbuild, (buildTLSConfig_insecure_spec tlsInsecureOnly diskEmpty rfl).1 _ hbuild⟩

/-- Claim C7: with a non-empty caCertPath, a failing read produces the
CA-certificate-unreadable error and a successful read of content with no
parseable PEM certificate produces the distinct CA-certificate-unparseable
error; in both cases the result is an error, not a transport context. -/
theorem buildTLSConfig_ca_failures (c : TLSConfig) (disk : Disk)
    (h : c.caCertPath ≠ "") :
    (disk.readFile c.caCertPath = none →
      c.buildTLSConfig disk = Except.error BuildTLSError.caCertUnreadable) ∧
    (∀ bs, disk.readFile c.caCertPath = some bs →
      disk.appendCertsFromPEM bs = false →
      c.buildTLSConfig disk = Except.error BuildTLSError.caCertUnparseable) ∧
    BuildTLSError.caCertUnreadable ≠ BuildTLSError.caCertUnparseable := by
  have hca : (c.caCertPath != "") = true := by simp [h]
  refine ⟨?_, ?_, by decide⟩
  · intro hr
    unfold TLSConfig.buildTLSConfig
    simp [hca, hr]
  · intro bs hr hp
    unfold TLSConfig.buildTLSConfig
    simp [hca, hr, hp]

/-- Claim C7 witness: on a file system where reads fail the CA config
yields the unreadable error, and on one where content does not parse it
yields the unparseable error. -/
theorem buildTLSConfig_ca_failures_witness :
    tlsWithCA.buildTLSConfig diskEmpty = Except.error BuildTLSError.caCertUnreadable ∧
    tlsWithCA.buildTLSConfig diskBadPem = Except.error BuildTLSError.caCertUnparseable := by
  refine ⟨(buildTLSConfig_ca_failures tlsWithCA diskEmpty (by decide)).1 rfl, ?_⟩
  exact (buildTLSConfig_ca_failures tlsWithCA diskBadPem (by decide)).2.1 7 rfl rfl

/-- Claim C3 counterexample: the mergo-era tracing Init with host metrics
enabled reaches setupHostMetrics, and when the metric exporter constructor
fails there the whole Init call ends in a panic rather than in an error
return with a nil handle. -/
theorem tracingInitOld_panics_on_setup_failure :
    (tracingInitOld tracingDefaultConfigOld envEmpty oracleMetricExporterFails cfgOldHostOn).outcome
      = InitOutcome.panicked ∧
    (tracingInitOld tracingDefaultConfigOld envEmpty oracleMetricExporterFails cfgOldHostOn).hostSetupCalled
      = true := by
  refine ⟨by decide, by decide⟩

/-- Claim C3 amended: the metrics, logs and TLS-era tracing Init pipelines
return every failure as an error value paired with a nil handle and never
panic or terminate the process, for any environment, file system, oracle
and caller config; the panic and log.Fatal exits live only in the
background-metrics setup helpers, which the TLS-era tracing Init never
reaches. -/
theorem init_failures_are_error_returns
    (envStart env : Env) (disk : Disk) (o : SdkOracle)
    (cfgM : OtelGoMetricsConfig) (cfgL : OtelGoLogsConfig) (cfgT : TracingConfig) :
    (metricsInit (metricsDefaultConfig envStart) env disk o cfgM).outcome.aborted = false ∧
    (logsInit (logsDefaultConfig envStart) env disk o cfgL).outcome.aborted = false ∧
    (tracingInit tracingDefaultConfig env disk o cfgT).outcome.aborted = false := by
  refine ⟨?_, ?_, ?_⟩
  · unfold metricsInit
    dsimp only
    repeat' split
    all_goals rfl
  · unfold logsInit
    dsimp only
    repeat' split
    all_goals rfl
  · unfold tracingInit
    dsimp only
    repeat' split
    all_goals first | rfl | simp_all [tracingDefaultConfig]

/-- Claim C4 counterexample: a non-empty caller attribute list carrying no
service-name attribute replaces the defaults, so the attribute set handed
to the resource contains zero service-name attributes, not exactly one. -/
theorem metricsInit_replacement_service_name_count :
    cfgVersionOnly.attributes.isEmpty = false ∧
    (metricsInit (metricsDefaultConfig envServiceAlpha) envEmpty diskEmpty oracleAllOk
        cfgVersionOnly).outcome
      = InitOutcome.ok
          { resourceAttrs := [serviceVersionAttr ("2.0.0")], usedGrpc := false
            tls := goTLSSecureBase } ∧
    countKey [serviceVersionAttr ("2.0.0")] ("service.name") = 0 := by
  refine ⟨rfl, by decide, rfl⟩

/-- Claim C4 amended: when the caller attribute list is non-empty, the
metrics and logs Init pipelines hand exactly that list to the resource, in
place of the defaults and without appending, so the resulting attribute
set carries exactly as many service-name attributes as the caller supplied
and never gains one from the defaults; when the caller list is empty, the
environment-derived defaults, which carry exactly one service-name
attribute, are used. -/
theorem init_attribute_replacement
    (envStart env : Env) (disk : Disk) (o : SdkOracle)
    (cfgM : OtelGoMetricsConfig) (cfgL : OtelGoLogsConfig) (pM pL : PipelineProvider)
    (hM : (metricsInit (metricsDefaultConfig envStart) env disk o cfgM).outcome
            = InitOutcome.ok pM)
    (hL : (logsInit (logsDefaultConfig envStart) env disk o cfgL).outcome
            = InitOutcome.ok pL) :
    (cfgM.attributes.isEmpty = false →
      pM.resourceAttrs = cfgM.attributes ∧
      countKey pM.resourceAttrs ("service.name") = countKey cfgM.attributes ("service.name")) ∧
    (cfgM.attributes.isEmpty = true →
      pM.resourceAttrs = (metricsDefaultConfig envStart).attributes ∧
      countKey pM.resourceAttrs ("service.name") = 1) ∧
    (cfgL.attributes.isEmpty = false →
      pL.resourceAttrs = cfgL.attributes ∧
      countKey pL.resourceAttrs ("service.name") = countKey cfgL.attributes ("service.name")) ∧
    (cfgL.attributes.isEmpty = true →
      pL.resourceAttrs = (logsDefaultConfig envStart).attributes ∧
      countKey pL.resourceAttrs ("service.name") = 1) := by
  have hMs := (metricsInit_ok_spec _ _ _ _ _ _ hM).1
  have hLs := (logsInit_ok_spec _ _ _ _ _ _ hL).1
  refine ⟨?_, ?_, ?_, ?_⟩
  · intro hne
    cases hcase : cfgM.attributes with
    | nil => rw [hcase] at hne; simp at hne
    | cons a t =>
      rw [hcase] at hMs
      simp at hMs
      rw [hMs]
      exact ⟨rfl, rfl⟩
  · intro he
    have hnil : cfgM.attributes = [] := by
      cases hcase : cfgM.attributes with
      | nil => rfl
      | cons a t => rw [hcase] at he; simp at he
    rw [hnil] at hMs
    simp at hMs
    rw [hMs]
    exact ⟨rfl, rfl⟩
  · intro hne
    cases hcase : cfgL.attributes with
    | nil => rw [hcase] at hne; simp at hne
    | cons a t =>
      rw [hcase] at hLs
      simp at hLs
      rw [hLs]
      exact ⟨rfl, rfl⟩
  · intro he
    have hnil : cfgL.attributes = [] := by
      cases hcase : cfgL.attributes with
      | nil => rfl
      | cons a t => rw [hcase] at he; simp at he
    rw [hnil] at hLs
    simp at hLs
    rw [hLs]
    exact ⟨rfl, rfl⟩

/-- Claim C4 witness: a caller list with one service-name attribute is used
verbatim by the metrics pipeline, and an empty caller list on the logs
pipeline falls back to the defaults with exactly one service-name entry. -/
theorem init_attribute_replacement_witness :
    (pCustomM.resourceAttrs = cfgCustomM.attributes ∧
      countKey pCustomM.resourceAttrs ("service.name")
        = countKey cfgCustomM.attributes ("service.name")) ∧
    (pDefaultL.resourceAttrs = (logsDefaultConfig envServiceAlpha).attributes ∧
      countKey pDefaultL.resourceAttrs ("service.name") = 1) := by
  have h := init_attribute_replacement envServiceAlpha envEmpty diskEmpty oracleAllOk
    cfgCustomM cfgEmptyL pCustomM pDefaultL (by decide) (by decide)
  exact ⟨h.1 rfl, h.2.2.2 rfl⟩

/-- Claim C5 counterexample: the default service-name attribute is captured
from the environment once, at package initialisation; an Init call made
after OTEL_SERVICE_NAME changed from alpha to beta still uses alpha, so
the change does not take effect on the later call. -/
theorem serviceName_env_cached_at_start :
    envServiceBeta.get ("OTEL_SERVICE_NAME") = "beta" ∧
    (metricsInit (metricsDefaultConfig envServiceAlpha) envServiceBeta diskEmpty oracleAllOk
        cfgEmptyM).outcome
      = InitOutcome.ok pAlphaDefaults ∧
    pAlphaDefaults.resourceAttrs.any (fun a => a.value == "beta") = false := by
  refine ⟨rfl, by decide, rfl⟩

/-- Claim C5 amended: the TLS default variables and the protocol selector
are read from the call-time environment on every Init call, while the
OTEL_SERVICE_NAME default attribute is the one captured at process start
into the package defaults. -/
theorem init_env_read_times
    (envStart envCall : Env) (disk : Disk) (o : SdkOracle) (p : PipelineProvider)
    (h : (metricsInit (metricsDefaultConfig envStart) envCall disk o cfgEmptyM).outcome
          = InitOutcome.ok p) :
    p.resourceAttrs =
      [serviceNameAttr (envStart.get ("OTEL_SERVICE_NAME")), serviceVersionAttr ("v1.0.0")] ∧
    p.tls.insecureSkipVerify = (envCall.get ("OTEL_EXPORTER_OTLP_INSECURE") == "true") ∧
    p.usedGrpc = IsOtlpProtocolGrpc envCall ("OTEL_EXPORTER_OTLP_METRICS_PROTOCOL") := by
  rcases metricsInit_ok_spec _ _ _ _ _ _ h with ⟨hA, hG, hB⟩
  refine ⟨?_, ?_, hG⟩
  · rw [hA]; rfl
  · have hfields := buildTLSConfig_ok_fields (NewTLSConfig envCall) disk p.tls hB
    rw [hfields.1]; rfl

/-- Claim C5 witness: with defaults captured under envServiceAlpha and a
later call under envCallMixed, the service name stays alpha while the
insecure flag and the gRPC flavor follow the call-time environment. -/
theorem init_env_read_times_witness :
    pMixedRun.resourceAttrs =
      [serviceNameAttr (envServiceAlpha.get ("OTEL_SERVICE_NAME")), serviceVersionAttr ("v1.0.0")] ∧
    pMixedRun.tls.insecureSkipVerify = (envCallMixed.get ("OTEL_EXPORTER_OTLP_INSECURE") == "true") ∧
    pMixedRun.usedGrpc = IsOtlpProtocolGrpc envCallMixed ("OTEL_EXPORTER_OTLP_METRICS_PROTOCOL") :=
  init_env_read_times envServiceAlpha envCallMixed diskEmpty oracleAllOk pMixedRun (by decide)

/-- Claim C6 counterexample: with the per-signal metrics protocol variable
set to http and the general variable set to grpc, the code selects the
gRPC flavor although the specification rule, which consults the general
variable only when the per-signal one is unset, selects the non-gRPC
flavor. -/
theorem isOtlpProtocolGrpc_fallback_even_when_set :
    envPerSignalHttpGeneralGrpc.get ("OTEL_EXPORTER_OTLP_METRICS_PROTOCOL") = "http" ∧
    IsOtlpProtocolGrpc envPerSignalHttpGeneralGrpc ("OTEL_EXPORTER_OTLP_METRICS_PROTOCOL") = true ∧
    specSelectsGrpc envPerSignalHttpGeneralGrpc ("OTEL_EXPORTER_OTLP_METRICS_PROTOCOL") = false := by
  refine ⟨rfl, by decide, by decide⟩

/-- Claim C6 amended: the gRPC flavor is selected exactly when the
per-signal variable reads exactly "grpc" or the general variable reads
exactly "grpc"; the general variable is consulted whenever the per-signal
one does not read "grpc", including when it is set to another value, and
both comparisons are case-sensitive; with neither variable set the
non-gRPC flavor is selected. -/
theorem isOtlpProtocolGrpc_characterization (env : Env) (dataType : String) :
    IsOtlpProtocolGrpc env dataType = true ↔
      (env.get (strToUpper dataType) = "grpc" ∨
        env.get ("OTEL_EXPORTER_OTLP_PROTOCOL") = "grpc") := by
  unfold IsOtlpProtocolGrpc
  by_cases h : env.get (strToUpper dataType) = "grpc" <;> simp [h]

/-- Claim C8 counterexample: the mergo-era metrics Init merges the caller
config into the package-level defaultConfig, so after a call with a
caller-supplied attribute list the package defaults differ from their
value before the call. -/
theorem metricsInitOld_mutates_defaultConfig :
    (metricsInitOld (metricsDefaultConfigOld envServiceAlpha) envEmpty oracleAllOk
        cfgOldCustom).defaultsAfter
      = { attributes := [serviceNameAttr ("svc-b")] } ∧
    decide ((metricsInitOld (metricsDefaultConfigOld envServiceAlpha) envEmpty oracleAllOk
        cfgOldCustom).defaultsAfter
      = metricsDefaultConfigOld envServiceAlpha) = false := by
  refine ⟨by decide, by decide⟩

/-- Claim C8 amended: the TLS-era metrics, logs and tracing Init pipelines
leave the package-level defaults exactly as they were before the call, for
every input; the mergo-era metrics Init instead leaves behind the mergo
merge of the old defaults with the caller config, so non-empty caller
fields persist into the defaults seen by later calls. -/
theorem init_package_defaults_frame
    (env : Env) (disk : Disk) (o : SdkOracle)
    (defsM cfgM : OtelGoMetricsConfig) (defsL cfgL : OtelGoLogsConfig)
    (defsT cfgT : TracingConfig) (defsOld cfgOld : OtelGoMetricsConfigOld) :
    (metricsInit defsM env disk o cfgM).defaultsAfter = defsM ∧
    (logsInit defsL env disk o cfgL).defaultsAfter = defsL ∧
    (tracingInit defsT env disk o cfgT).defaultsAfter = defsT ∧
    (metricsInitOld defsOld env o cfgOld).defaultsAfter = mergoMergeMetricsOld defsOld cfgOld := by
  refine ⟨rfl, rfl, ?_, ?_⟩
  · unfold tracingInit
    dsimp only
    repeat' split
    all_goals rfl
  · unfold metricsInitOld
    dsimp only
    repeat' split
    all_goals rfl

/-- Claim C9: the TLS-era tracing Init guards its background-metrics
branches on the package-level defaultConfig, whose toggles are initialised
to false and never assigned, so for every caller config, including one
with the toggles set, neither setupHostMetrics nor setupRuntimeMetrics is
ever invoked and the panic and fatal-exit paths inside them are
unreachable from Init. -/
theorem tracingInit_background_setups_unreachable
    (env : Env) (disk : Disk) (o : SdkOracle) (config : TracingConfig) :
    (tracingInit tracingDefaultConfig env disk o config).hostSetupCalled = false ∧
    (tracingInit tracingDefaultConfig env disk o config).runtimeSetupCalled = false ∧
    (tracingInit tracingDefaultConfig env disk o config).outcome.aborted = false ∧
    tracingDefaultConfig.hostMetricsEnabled = false ∧
    tracingDefaultConfig.runtimeMetricsEnabled = false := by
  refine ⟨?_, ?_, ?_, rfl, rfl⟩ <;>
    (unfold tracingInit
     dsimp only
     repeat' split
     all_goals first | rfl | simp_all [tracingDefaultConfig])

/-- Claim C10: on any builder state, WithHostMetrics and WithRuntimeMetrics
with a non-positive interval set the corresponding enabled flag to the
given value and leave every other field, in particular the previously-set
interval, unchanged. -/
theorem withMetrics_nonpositive_interval (b : TracingBuilder) (enabled : Bool) (d : Int)
    (h : d ≤ 0) :
    (b.withHostMetrics enabled d).config = { b.config with hostMetricsEnabled := enabled } ∧
    (b.withRuntimeMetrics enabled d).config = { b.config with runtimeMetricsEnabled := enabled } := by
  have hd : ¬ d > 0 := not_lt.mpr h
  unfold TracingBuilder.withHostMetrics TracingBuilder.withRuntimeMetrics
  simp [hd]

/-- Claim C10 witness: a fresh builder with a negative interval keeps the
two-second default intervals while the toggles are set. -/
theorem withMetrics_nonpositive_interval_witness :
    (NewBuilder.withHostMetrics true (-5)).config
      = { NewBuilder.config with hostMetricsEnabled := true } ∧
    (NewBuilder.withRuntimeMetrics true (-5)).config
      = { NewBuilder.config with runtimeMetricsEnabled := true } :=
  withMetrics_nonpositive_interval NewBuilder true (-5) (by decide)

end Otelgo
